import Mathlib

/-!
# Verification of the go-latest upgrade engine

Shallow embedding of `main.go` of the go-latest repository: the version
classifier `isSpecific`, the per-program upgrade task of `installer`, the
aggregate run semantics of the errgroup it uses, and the exit behaviour of
`runMain`/`main`.  External effects (reading build info from a binary, the
`go list -m pkg@latest` query, the `go install` action) are modelled as
per-task environment values; the control flow acting on them is translated
from the source.
-/

namespace GoSemver

/-!
The classifier `isSpecific` in `main.go` calls `semver.IsValid` and
`semver.Prerelease` from golang.org/x/mod/semver.  This section embeds that
library's parser (`parse`, `parseInt`, `parsePrerelease`, `parseBuild`,
`isIdentChar`, `isBadNum`) over `List Char`.
-/

def isDigit (c : Char) : Bool := '0' ≤ c && c ≤ '9'

/-- `isIdentChar` of x/mod/semver: ASCII letters, digits and hyphen. -/
def isIdentChar (c : Char) : Bool :=
  ('A' ≤ c && c ≤ 'Z') || ('a' ≤ c && c ≤ 'z') || isDigit c || c = '-'

/-- `isBadNum` of x/mod/semver: an all-digit identifier longer than one
character starting with `0`. -/
def isBadNum (l : List Char) : Bool :=
  l.all isDigit && decide (1 < l.length) && l.head? == some '0'

/-- `parseInt` of x/mod/semver: a leading run of decimal digits, rejecting a
redundant leading zero.  Returns the digits and the rest of the input. -/
def parseInt (l : List Char) : Option (List Char × List Char) :=
  match l with
  | [] => none
  | c :: cs =>
    if isDigit c then
      let digits := cs.takeWhile isDigit
      let rest := cs.dropWhile isDigit
      if c = '0' && digits ≠ [] then none
      else some (c :: digits, rest)
    else none

/-- Split a character list at every `'.'`; mirrors the segment boundaries the
scanning loops of `parsePrerelease`/`parseBuild` track via `start`. -/
def splitDots (l : List Char) : List (List Char) :=
  match l with
  | [] => [[]]
  | c :: rest =>
    let r := splitDots rest
    if c = '.' then [] :: r
    else
      match r with
      | s :: ss => (c :: s) :: ss
      | [] => [[c]]

/-- One dot-separated identifier of a pre-release: nonempty, identifier
characters only, and not a bad (leading-zero) numeral. -/
def validPreSegment (seg : List Char) : Bool :=
  !(seg == []) && seg.all isIdentChar && !isBadNum seg

/-- One dot-separated identifier of build metadata: nonempty, identifier
characters only. -/
def validBuildSegment (seg : List Char) : Bool :=
  !(seg == []) && seg.all isIdentChar

/-- `parsePrerelease` of x/mod/semver: consumes `-` followed by dot-separated
identifiers up to an optional `+`.  Returns the consumed text (including the
hyphen, as the Go code does) and the rest. -/
def parsePrerelease (l : List Char) : Option (List Char × List Char) :=
  match l with
  | '-' :: rest =>
    let body := rest.takeWhile (fun c => c ≠ '+')
    let tail := rest.dropWhile (fun c => c ≠ '+')
    if (splitDots body).all validPreSegment then some ('-' :: body, tail)
    else none
  | _ => none

/-- `parseBuild` of x/mod/semver: consumes `+` followed by dot-separated
identifiers running to the end of the input. -/
def parseBuild (l : List Char) : Option (List Char × List Char) :=
  match l with
  | '+' :: rest =>
    if (splitDots rest).all validBuildSegment then some ('+' :: rest, [])
    else none
  | _ => none

/-- `parse` of x/mod/semver, reduced to the one field `isSpecific` consumes:
returns `some prerelease` (possibly empty) when the version is valid, `none`
otherwise.  A version is `v` MAJOR [`.` MINOR [`.` PATCH [prerelease]
[build]]]. -/
def parseVersion (l : List Char) : Option (List Char) :=
  match l with
  | 'v' :: rest =>
    match parseInt rest with
    | none => none
    | some (_, r1) =>
      match r1 with
      | [] => some []
      | '.' :: r2 =>
        match parseInt r2 with
        | none => none
        | some (_, r3) =>
          match r3 with
          | [] => some []
          | '.' :: r4 =>
            match parseInt r4 with
            | none => none
            | some (_, r5) =>
              let pre? : Option (List Char × List Char) :=
                match r5 with
                | '-' :: _ => parsePrerelease r5
                | _ => some ([], r5)
              match pre? with
              | none => none
              | some (pre, r6) =>
                let r7? : Option (List Char) :=
                  match r6 with
                  | '+' :: _ =>
                    match parseBuild r6 with
                    | none => none
                    | some (_, r) => some r
                  | _ => some r6
                match r7? with
                | none => none
                | some r7 => if r7 = [] then some pre else none
          | _ => none
      | _ => none
  | _ => none

/-- `semver.IsValid`. -/
def IsValid (s : String) : Bool := (parseVersion s.data).isSome

/-- `semver.Prerelease`: the pre-release suffix including its leading hyphen,
or the empty string when absent or invalid. -/
def Prerelease (s : String) : String :=
  match parseVersion s.data with
  | some pre => String.mk pre
  | none => ""

end GoSemver

/-- `isSpecific` from `main.go`: true for the local-build sentinel `(devel)`
and for any valid semantic version carrying a non-empty pre-release. -/
def isSpecific (v : String) : Bool :=
  if v = "(devel)" then true
  else if GoSemver.IsValid v && GoSemver.Prerelease v != "" then true
  else false

example : isSpecific "(devel)" = true := by decide
example : isSpecific "v1.2.3" = false := by decide
example : isSpecific "v1.2.3-0.20210101000000-abcdef123456" = true := by decide
example : isSpecific "not-a-version" = false := by decide
example : isSpecific "" = false := by decide
example : isSpecific "v1" = false := by decide
example : isSpecific "v1.2.3-rc1" = true := by decide
example : isSpecific "v1.2.3+meta" = false := by decide
example : isSpecific "v01.2.3" = false := by decide

/-- Build metadata read from one installed binary by `buildinfo.ReadFile`:
`info.Path`, `info.Main.Path`, `info.Main.Version`, `info.GoVersion`. -/
structure BuildInfo where
  path : String
  mainPath : String
  mainVersion : String
  goVersion : String
deriving Repr, DecidableEq

/-- Result of `latest(ctx, pkg)` for one task.  `errCanceled` stands for an
error `err` with `errors.Is(err, context.Canceled)` true (the `go list` error
is wrapped with `%w`, so the cause is inspectable); `errOther` for any other
failure, including a JSON decode error. -/
inductive ResolveResult where
  | ok (version : String)
  | errCanceled
  | errOther (msg : String)
deriving Repr, DecidableEq

/-- Outcome of the `go install` action when it fails: its combined output,
plus whether the failure was caused by the run's cancellation signal (ghost
information the task's code never inspects). -/
structure InstallFailure where
  msg : String
  causedByCancel : Bool
deriving Repr, DecidableEq

deriving instance DecidableEq for Except

/-- The external world seen by one task of `installer`: the build-info read,
the resolver's answer, and the install action's outcome (`none` = success). -/
structure TaskEnv where
  readInfo : Except String BuildInfo
  resolve : ResolveResult
  install : Option InstallFailure
deriving Repr, DecidableEq

/-- Run-wide configuration: the `-go` flag (`latestGo`) and
`runtime.Version()`, constant for the run. -/
structure Config where
  latestGo : Bool
  runtimeVersion : String
deriving Repr, DecidableEq

/-- An error returned by one task's closure: either the fatal
`buildinfo.ReadFile` error or the wrapped `go install` error. -/
inductive TaskErr where
  | readErr (msg : String)
  | installErr (msg : String) (causedByCancel : Bool)
deriving Repr, DecidableEq

/-- `errors.Is(err, context.Canceled)` on an error returned by a task, as the
wrapping in `main.go` determines it: the read error is a plain `fs` error and
the install error is built with `%s` (not `%w`), so neither ever matches
`context.Canceled` — even when the install failed because of cancellation. -/
def errorsIsCanceled : TaskErr → Bool
  | .readErr _ => false
  | .installErr _ _ => false

/-- Observable behaviour of one task: whether the resolver was called, the
value of the `target` variable at the decision point (if reached), the
argument string passed to `go install` (if invoked), and the closure's
returned error. -/
structure TaskTrace where
  resolveAttempted : Bool
  target : Option String
  installCmd : Option String
  ret : Option TaskErr
deriving Repr, DecidableEq

/-- `goUpgrade := latestGo && runtime.Version() != info.GoVersion` -/
def goUpgrade (cfg : Config) (info : BuildInfo) : Bool :=
  cfg.latestGo && cfg.runtimeVersion != info.goVersion

/-- `modUpgrade := target != info.Main.Version` -/
def modUpgrade (target : String) (info : BuildInfo) : Bool :=
  target != info.mainVersion

/-- Decision/install tail of a task (`main.go` lines 300-315): the
`goUpgrade`/`modUpgrade` test, the `already latest` early return, and the
`go install info.Path@latest` invocation. -/
def decideAndInstall (cfg : Config) (env : TaskEnv) (info : BuildInfo)
    (target : String) : TaskTrace :=
  if !goUpgrade cfg info && !modUpgrade target info then
    { resolveAttempted := true, target := some target, installCmd := none,
      ret := none }
  else
    match env.install with
    | none =>
        { resolveAttempted := true, target := some target,
          installCmd := some (info.path ++ "@latest"), ret := none }
    | some fail =>
        { resolveAttempted := true, target := some target,
          installCmd := some (info.path ++ "@latest"),
          ret := some (.installErr fail.msg fail.causedByCancel) }

/-- One task of `installer` (`main.go` lines 278-316): read build info (fatal
on failure), skip pinned programs, resolve the latest version (returning nil
on a cancellation-classified resolve error, falling back to the `"?"`
sentinel on any other), then decide and install. -/
def task (cfg : Config) (env : TaskEnv) : TaskTrace :=
  match env.readInfo with
  | .error msg =>
      { resolveAttempted := false, target := none, installCmd := none,
        ret := some (.readErr msg) }
  | .ok info =>
    if isSpecific info.mainVersion then
      { resolveAttempted := false, target := none, installCmd := none,
        ret := none }
    else
      match env.resolve with
      | .errCanceled =>
          { resolveAttempted := true, target := none, installCmd := none,
            ret := none }
      | .ok v => decideAndInstall cfg env info v
      | .errOther _ => decideAndInstall cfg env info "?"

/-- The body of `installer`: one task per discovered program.  The errgroup
launches every closure regardless of other tasks' failures (the group is not
created with `WithContext`, so an error does not cancel siblings), hence each
trace depends only on that program's own environment. -/
def installerRun (cfg : Config) (envs : List TaskEnv) : List TaskTrace :=
  envs.map (task cfg)

/-- `eg.Wait()`: waits for every task, then returns the first non-nil error a
task returned (completion order is nondeterministic in the source; list order
stands in for it here). -/
def runResult (cfg : Config) (envs : List TaskEnv) : Option TaskErr :=
  (installerRun cfg envs).findSome? (fun t => t.ret)

/-- What `main` does with `runMain`'s result: exit code 0 and no message on
nil; otherwise exit code 1, printing the error unless
`errors.Is(err, context.Canceled)` (`main.go` lines 371-379). -/
structure MainOutcome where
  exitCode : Nat
  messagePrinted : Bool
deriving Repr, DecidableEq

/-- Exit behaviour of `main` as a function of the installer run's result. -/
def mainOutcome (cfg : Config) (envs : List TaskEnv) : MainOutcome :=
  match runResult cfg envs with
  | none => { exitCode := 0, messagePrinted := false }
  | some e => { exitCode := 1, messagePrinted := !(errorsIsCanceled e) }

/-- The spec's `UpgradeOutcome.decision` taxonomy. -/
inductive Decision where
  | skippedPinned
  | alreadyLatest
  | upgraded
  | resolveFailed
  | installFailed
deriving Repr, DecidableEq

/-- The decision a task's observable trace amounts to.  `none` for the two
cases that end a task without an upgrade outcome: a fatal build-info read
error and a cancellation-classified resolve error. -/
def TaskTrace.decision (t : TaskTrace) : Option Decision :=
  match t.ret with
  | some (.readErr _) => none
  | some (.installErr _ _) => some .installFailed
  | none =>
    match t.installCmd with
    | some _ => some .upgraded
    | none =>
      if t.resolveAttempted then
        match t.target with
        | some _ => some .alreadyLatest
        | none => none
      else some .skippedPinned

/-- `runMain`'s handling of the `-j` flag (`main.go` lines 348-350): only an
exactly-zero value is replaced by `runtime.NumCPU()`; every other value,
negative included, is passed to the errgroup unchanged. -/
def effectiveNProcs (numCPU n : Int) : Int :=
  if n = 0 then numCPU else n

/-- The limit interpretation of `errgroup.(*Group).SetLimit` from
golang.org/x/sync, which `installer` calls with `nProcs`: a negative value
indicates no limit on the number of active goroutines. -/
def egSetLimitUnlimited (n : Int) : Bool := n < 0

/-! ## Claim theorems -/

/-- C3: `isSpecific` returns true exactly on the local-build sentinel
`(devel)` and on valid semantic versions with a non-empty pre-release, and
false on every other string — in particular on the four example inputs of the
spec and on the empty string. -/
theorem C3_isSpecific_classifier :
    (∀ v : String, isSpecific v = true ↔
      (v = "(devel)" ∨ (GoSemver.IsValid v = true ∧ GoSemver.Prerelease v ≠ ""))) ∧
    isSpecific "(devel)" = true ∧
    isSpecific "v1.2.3-0.20210101000000-abcdef123456" = true ∧
    isSpecific "v1.2.3" = false ∧
    isSpecific "not-a-version" = false ∧
    isSpecific "" = false := by
  refine ⟨?_, by decide, by decide, by decide, by decide, by decide⟩
  intro v
  by_cases h : v = "(devel)"
  · simp [isSpecific, h]
  · simp only [isSpecific, if_neg h]
    by_cases h2 : (GoSemver.IsValid v && GoSemver.Prerelease v != "") = true
    · simp only [h2, if_pos]
      simp only [Bool.and_eq_true, bne_iff_ne, ne_eq] at h2
      simp [h, h2]
    · simp only [h2]
      simp only [Bool.and_eq_true, bne_iff_ne, ne_eq] at h2
      simp only [Bool.false_eq_true, if_false]
      constructor
      · intro hc; exact absurd hc (by simp)
      · rintro (rfl | ⟨hv, hp⟩)
        · exact absurd rfl h
        · exact absurd ⟨hv, hp⟩ h2

/-- C3 witness: the classifier theorem applied at the sentinel input. -/
theorem C3_witness : isSpecific "(devel)" = true :=
  (C3_isSpecific_classifier.1 "(devel)").mpr (Or.inl rfl)

/-- C8: a record whose current version is classified as pinned is skipped
immediately — no resolution is attempted, no install is invoked, the task
returns nil, and the outcome is Skipped-Pinned. -/
theorem C8_pinned_skips (cfg : Config) (env : TaskEnv) (info : BuildInfo)
    (hread : env.readInfo = .ok info)
    (hpin : isSpecific info.mainVersion = true) :
    task cfg env =
      { resolveAttempted := false, target := none, installCmd := none,
        ret := none } ∧
    (task cfg env).decision = some Decision.skippedPinned := by
  have ht : task cfg env =
      { resolveAttempted := false, target := none, installCmd := none,
        ret := none } := by
    simp [task, hread, hpin]
  exact ⟨ht, by rw [ht]; rfl⟩

/-- C8 witness: a concrete `(devel)` record is skipped. -/
theorem C8_witness :
    task { latestGo := false, runtimeVersion := "go1.22.0" }
      { readInfo := .ok { path := "example.com/mod/cmd/p",
                          mainPath := "example.com/mod",
                          mainVersion := "(devel)",
                          goVersion := "go1.22.0" },
        resolve := .errOther "unused", install := none } =
      { resolveAttempted := false, target := none, installCmd := none,
        ret := none } ∧
    (task { latestGo := false, runtimeVersion := "go1.22.0" }
      { readInfo := .ok { path := "example.com/mod/cmd/p",
                          mainPath := "example.com/mod",
                          mainVersion := "(devel)",
                          goVersion := "go1.22.0" },
        resolve := .errOther "unused", install := none }).decision =
      some Decision.skippedPinned :=
  C8_pinned_skips _ _
    { path := "example.com/mod/cmd/p", mainPath := "example.com/mod",
      mainVersion := "(devel)", goVersion := "go1.22.0" }
    rfl (by decide)

/-- Reduction of `task` on a readable, unpinned record whose resolve
succeeded. -/
theorem task_ok_resolved (cfg : Config) (env : TaskEnv) (info : BuildInfo)
    (v : String) (hread : env.readInfo = .ok info)
    (hpin : isSpecific info.mainVersion = false)
    (hres : env.resolve = .ok v) :
    task cfg env = decideAndInstall cfg env info v := by
  unfold task
  rw [hread]
  simp only [hpin, Bool.false_eq_true, if_false, hres]

/-- Reduction of `task` on a readable, unpinned record whose resolve failed
for a reason other than cancellation: the target falls back to `"?"`. -/
theorem task_ok_resolve_failed (cfg : Config) (env : TaskEnv)
    (info : BuildInfo) (msg : String) (hread : env.readInfo = .ok info)
    (hpin : isSpecific info.mainVersion = false)
    (hres : env.resolve = .errOther msg) :
    task cfg env = decideAndInstall cfg env info "?" := by
  unfold task
  rw [hread]
  simp only [hpin, Bool.false_eq_true, if_false, hres]

/-- Reduction of `task` on a readable, unpinned record whose resolve was
cancelled: the task returns nil without deciding anything. -/
theorem task_ok_resolve_canceled (cfg : Config) (env : TaskEnv)
    (info : BuildInfo) (hread : env.readInfo = .ok info)
    (hpin : isSpecific info.mainVersion = false)
    (hres : env.resolve = .errCanceled) :
    task cfg env =
      { resolveAttempted := true, target := none, installCmd := none,
        ret := none } := by
  unfold task
  rw [hread]
  simp only [hpin, Bool.false_eq_true, if_false, hres]

/-- The decision tail either skips the install or invokes it with
`info.path ++ "@latest"`. -/
theorem decideAndInstall_installCmd (cfg : Config) (env : TaskEnv)
    (info : BuildInfo) (target : String) :
    (decideAndInstall cfg env info target).installCmd = none ∨
    (decideAndInstall cfg env info target).installCmd =
      some (info.path ++ "@latest") := by
  unfold decideAndInstall
  by_cases hc : (!goUpgrade cfg info && !modUpgrade target info) = true
  · rw [if_pos hc]
    exact Or.inl rfl
  · rw [if_neg hc]
    cases hi : env.install
    · exact Or.inr rfl
    · exact Or.inr rfl

/-- Shape of a task's install command: absent, or the record's package path
suffixed `@latest`. -/
theorem task_installCmd_shape (cfg : Config) (env : TaskEnv) :
    (task cfg env).installCmd = none ∨
    ∃ info, env.readInfo = .ok info ∧
      (task cfg env).installCmd = some (info.path ++ "@latest") := by
  cases hre : env.readInfo with
  | error m =>
      left
      unfold task
      rw [hre]
  | ok info =>
    by_cases hp : isSpecific info.mainVersion = true
    · left
      exact congrArg TaskTrace.installCmd (C8_pinned_skips cfg env info hre hp).1
    · have hp' : isSpecific info.mainVersion = false := by
        simpa using hp
      cases hr : env.resolve with
      | errCanceled =>
          left
          rw [task_ok_resolve_canceled cfg env info hre hp' hr]
      | ok v =>
          rw [task_ok_resolved cfg env info v hre hp' hr]
          rcases decideAndInstall_installCmd cfg env info v with h | h
          · exact Or.inl h
          · exact Or.inr ⟨info, rfl, h⟩
      | errOther m =>
          rw [task_ok_resolve_failed cfg env info m hre hp' hr]
          rcases decideAndInstall_installCmd cfg env info "?" with h | h
          · exact Or.inl h
          · exact Or.inr ⟨info, rfl, h⟩

/-- C10: whenever a task invokes the install action, the command argument is
the program's package path suffixed with the literal `@latest`; the resolved
target never appears in it. -/
theorem C10_install_at_latest (cfg : Config) (env : TaskEnv) (s : String)
    (h : (task cfg env).installCmd = some s) :
    ∃ info, env.readInfo = .ok info ∧ s = info.path ++ "@latest" := by
  rcases task_installCmd_shape cfg env with h0 | ⟨info, hre, hcmd⟩
  · rw [h0] at h; cases h
  · rw [hcmd] at h
    exact ⟨info, hre, (Option.some.inj h).symm⟩

/-- C10 witness: a concrete outdated record installs `path@latest`. -/
theorem C10_witness :
    ∃ info,
      (TaskEnv.mk
        (.ok { path := "example.com/mod/cmd/q", mainPath := "example.com/mod",
               mainVersion := "v1.0.0", goVersion := "go1.22.0" })
        (.ok "v2.0.0") none).readInfo = .ok info ∧
      "example.com/mod/cmd/q@latest" = info.path ++ "@latest" :=
  C10_install_at_latest { latestGo := false, runtimeVersion := "go1.22.0" }
    (TaskEnv.mk
      (.ok { path := "example.com/mod/cmd/q", mainPath := "example.com/mod",
             mainVersion := "v1.0.0", goVersion := "go1.22.0" })
      (.ok "v2.0.0") none)
    "example.com/mod/cmd/q@latest" (by decide)

/-- The `already latest` guard holds exactly when the module version equals
the target and either `-go` is off or the toolchain matches. -/
theorem already_cond_iff (cfg : Config) (info : BuildInfo) (target : String) :
    (!goUpgrade cfg info && !modUpgrade target info) = true ↔
    (info.mainVersion = target ∧
      (cfg.latestGo = false ∨ cfg.runtimeVersion = info.goVersion)) := by
  simp only [goUpgrade, modUpgrade, Bool.and_eq_true, Bool.not_eq_true',
    Bool.and_eq_false_iff, bne_eq_false_iff_eq]
  constructor
  · rintro ⟨h1, h2⟩
    exact ⟨h2.symm, h1⟩
  · rintro ⟨h1, h2⟩
    exact ⟨h2, h1.symm⟩

/-- When the `already latest` guard holds, the task prints and returns. -/
theorem decideAndInstall_already (cfg : Config) (env : TaskEnv)
    (info : BuildInfo) (target : String)
    (h : (!goUpgrade cfg info && !modUpgrade target info) = true) :
    decideAndInstall cfg env info target =
      { resolveAttempted := true, target := some target, installCmd := none,
        ret := none } := by
  unfold decideAndInstall
  rw [if_pos h]

/-- When the `already latest` guard fails, the install is invoked at
`@latest`, and the outcome is Upgraded or InstallFailed by the install
action's result. -/
theorem decideAndInstall_not_already (cfg : Config) (env : TaskEnv)
    (info : BuildInfo) (target : String)
    (h : ¬((!goUpgrade cfg info && !modUpgrade target info) = true)) :
    (decideAndInstall cfg env info target).installCmd =
      some (info.path ++ "@latest") ∧
    ((decideAndInstall cfg env info target).decision = some Decision.upgraded ∨
     (decideAndInstall cfg env info target).decision =
       some Decision.installFailed) := by
  unfold decideAndInstall
  rw [if_neg h]
  cases hi : env.install
  · exact ⟨rfl, Or.inl rfl⟩
  · exact ⟨rfl, Or.inr rfl⟩

/-- C4: for a readable, unpinned record with a successfully resolved target,
the decision is AlreadyLatest (with no install) exactly when the current
version equals the target and (`-go` off or the toolchain matches); in every
other case the install is invoked with the package path at `@latest`. -/
theorem C4_already_latest_decision (cfg : Config) (env : TaskEnv)
    (info : BuildInfo) (v : String)
    (hread : env.readInfo = .ok info)
    (hpin : isSpecific info.mainVersion = false)
    (hres : env.resolve = .ok v) :
    ((task cfg env).decision = some Decision.alreadyLatest ↔
      (info.mainVersion = v ∧
        (cfg.latestGo = false ∨ cfg.runtimeVersion = info.goVersion))) ∧
    ((task cfg env).decision = some Decision.alreadyLatest →
      (task cfg env).installCmd = none) ∧
    ((task cfg env).decision ≠ some Decision.alreadyLatest →
      (task cfg env).installCmd = some (info.path ++ "@latest")) := by
  rw [task_ok_resolved cfg env info v hread hpin hres]
  by_cases hc : (!goUpgrade cfg info && !modUpgrade v info) = true
  · rw [decideAndInstall_already cfg env info v hc]
    have hcp := (already_cond_iff cfg info v).mp hc
    refine ⟨⟨fun _ => hcp, fun _ => rfl⟩, fun _ => rfl, fun hne => ?_⟩
    exact absurd rfl hne
  · obtain ⟨hcmd, hdec⟩ := decideAndInstall_not_already cfg env info v hc
    have hne : (decideAndInstall cfg env info v).decision ≠
        some Decision.alreadyLatest := by
      rcases hdec with h1 | h1 <;> rw [h1] <;>
        exact fun hd => Decision.noConfusion (Option.some.inj hd)
    refine ⟨⟨fun hd => absurd hd hne, fun hcp => ?_⟩,
      fun hd => absurd hd hne, fun _ => hcmd⟩
    exact absurd ((already_cond_iff cfg info v).mpr hcp) hc

/-- C4 witness: module version equal to the target but a differing toolchain
under `-go` still reinstalls at `@latest`. -/
theorem C4_witness :
    (task { latestGo := true, runtimeVersion := "go1.23.0" }
      { readInfo := .ok { path := "example.com/mod/cmd/r",
                          mainPath := "example.com/mod",
                          mainVersion := "v1.0.0",
                          goVersion := "go1.22.0" },
        resolve := .ok "v1.0.0", install := none }).installCmd =
      some ("example.com/mod/cmd/r" ++ "@latest") :=
  (C4_already_latest_decision { latestGo := true, runtimeVersion := "go1.23.0" }
    { readInfo := .ok { path := "example.com/mod/cmd/r",
                        mainPath := "example.com/mod",
                        mainVersion := "v1.0.0",
                        goVersion := "go1.22.0" },
      resolve := .ok "v1.0.0", install := none }
    { path := "example.com/mod/cmd/r", mainPath := "example.com/mod",
      mainVersion := "v1.0.0", goVersion := "go1.22.0" }
    "v1.0.0" rfl (by decide) rfl).2.2 (by decide)

/-- C1 counterexample: a record whose resolution fails (not by cancellation)
records the `"?"` sentinel and the run continues, but — contrary to the claim
— an install IS attempted for that program, at `@latest`. -/
theorem C1_counterexample :
    task { latestGo := false, runtimeVersion := "go1.22.0" }
      { readInfo := .ok { path := "example.com/mod/cmd/d",
                          mainPath := "example.com/mod",
                          mainVersion := "v1.0.0",
                          goVersion := "go1.22.0" },
        resolve := .errOther "go list failed", install := none } =
      { resolveAttempted := true, target := some "?",
        installCmd := some "example.com/mod/cmd/d@latest", ret := none } := by
  decide

/-- C1 amended: when resolution fails for a reason other than cancellation on
a readable, unpinned record, the target is recorded as the `"?"` sentinel and
the run continues (the task never aborts siblings with a resolve error), but
the install IS attempted, at `@latest`; the outcome is Upgraded or
InstallFailed according to the install action, not a ResolveFailed
short-circuit. -/
theorem C1_resolve_failure (cfg : Config) (env : TaskEnv) (info : BuildInfo)
    (msg : String)
    (hread : env.readInfo = .ok info)
    (hpin : isSpecific info.mainVersion = false)
    (hres : env.resolve = .errOther msg)
    (hq : info.mainVersion ≠ "?") :
    (task cfg env).target = some "?" ∧
    (task cfg env).installCmd = some (info.path ++ "@latest") ∧
    ((task cfg env).ret = none ∨
      ∃ m c, (task cfg env).ret = some (TaskErr.installErr m c)) ∧
    ((task cfg env).decision = some Decision.upgraded ∨
     (task cfg env).decision = some Decision.installFailed) := by
  rw [task_ok_resolve_failed cfg env info msg hread hpin hres]
  have hc : ¬((!goUpgrade cfg info && !modUpgrade "?" info) = true) := by
    intro hcc
    exact hq ((already_cond_iff cfg info "?").mp hcc).1
  obtain ⟨hcmd, hdec⟩ := decideAndInstall_not_already cfg env info "?" hc
  refine ⟨?_, hcmd, ?_, hdec⟩
  · unfold decideAndInstall
    rw [if_neg hc]
    cases hi : env.install
    · rfl
    · rfl
  · unfold decideAndInstall
    rw [if_neg hc]
    cases hi : env.install with
    | none => exact Or.inl rfl
    | some fail => exact Or.inr ⟨fail.msg, fail.causedByCancel, rfl⟩

/-- C1 witness: the amended behaviour at a concrete failed resolution. -/
theorem C1_witness :
    (task { latestGo := false, runtimeVersion := "go1.22.0" }
      { readInfo := .ok { path := "example.com/mod/cmd/e",
                          mainPath := "example.com/mod",
                          mainVersion := "v1.1.0",
                          goVersion := "go1.22.0" },
        resolve := .errOther "network down", install := none }).target =
        some "?" ∧
    (task { latestGo := false, runtimeVersion := "go1.22.0" }
      { readInfo := .ok { path := "example.com/mod/cmd/e",
                          mainPath := "example.com/mod",
                          mainVersion := "v1.1.0",
                          goVersion := "go1.22.0" },
        resolve := .errOther "network down", install := none }).installCmd =
        some ("example.com/mod/cmd/e" ++ "@latest") ∧
    ((task { latestGo := false, runtimeVersion := "go1.22.0" }
      { readInfo := .ok { path := "example.com/mod/cmd/e",
                          mainPath := "example.com/mod",
                          mainVersion := "v1.1.0",
                          goVersion := "go1.22.0" },
        resolve := .errOther "network down", install := none }).ret = none ∨
      ∃ m c,
        (task { latestGo := false, runtimeVersion := "go1.22.0" }
          { readInfo := .ok { path := "example.com/mod/cmd/e",
                              mainPath := "example.com/mod",
                              mainVersion := "v1.1.0",
                              goVersion := "go1.22.0" },
            resolve := .errOther "network down", install := none }).ret =
          some (TaskErr.installErr m c)) ∧
    ((task { latestGo := false, runtimeVersion := "go1.22.0" }
      { readInfo := .ok { path := "example.com/mod/cmd/e",
                          mainPath := "example.com/mod",
                          mainVersion := "v1.1.0",
                          goVersion := "go1.22.0" },
        resolve := .errOther "network down", install := none }).decision =
        some Decision.upgraded ∨
     (task { latestGo := false, runtimeVersion := "go1.22.0" }
      { readInfo := .ok { path := "example.com/mod/cmd/e",
                          mainPath := "example.com/mod",
                          mainVersion := "v1.1.0",
                          goVersion := "go1.22.0" },
        resolve := .errOther "network down", install := none }).decision =
        some Decision.installFailed) :=
  C1_resolve_failure { latestGo := false, runtimeVersion := "go1.22.0" }
    { readInfo := .ok { path := "example.com/mod/cmd/e",
                        mainPath := "example.com/mod",
                        mainVersion := "v1.1.0",
                        goVersion := "go1.22.0" },
      resolve := .errOther "network down", install := none }
    { path := "example.com/mod/cmd/e", mainPath := "example.com/mod",
      mainVersion := "v1.1.0", goVersion := "go1.22.0" }
    "network down" rfl (by decide) rfl (by decide)

/-- C7 counterexample: a negative `-j` value is not replaced by the CPU
count; it is passed through to the errgroup, where a negative limit means no
limit at all. -/
theorem C7_counterexample :
    effectiveNProcs 8 (-1) = -1 ∧
    egSetLimitUnlimited (effectiveNProcs 8 (-1)) = true ∧
    ¬ effectiveNProcs 8 (-1) = 8 := by
  decide

/-- C7 amended: only an exactly-zero `-j` value defaults to the number of
CPUs; any non-zero value — negative included — is used as given, and a
negative value yields an unlimited errgroup. -/
theorem C7_nprocs (numCPU n : Int) :
    (n = 0 → effectiveNProcs numCPU n = numCPU) ∧
    (n ≠ 0 → effectiveNProcs numCPU n = n) ∧
    (n < 0 →
      effectiveNProcs numCPU n = n ∧
      egSetLimitUnlimited (effectiveNProcs numCPU n) = true) := by
  refine ⟨fun h => ?_, fun h => ?_, fun h => ?_⟩
  · rw [effectiveNProcs, if_pos h]
  · rw [effectiveNProcs, if_neg h]
  · have hne : n ≠ 0 := by omega
    rw [effectiveNProcs, if_neg hne]
    exact ⟨rfl, by simp [egSetLimitUnlimited, h]⟩

/-- C7 witness: the amended rule at `numCPU = 8` for inputs `0` and `-1`. -/
theorem C7_witness :
    effectiveNProcs 8 0 = 8 ∧
    (effectiveNProcs 8 (-1) = -1 ∧
      egSetLimitUnlimited (effectiveNProcs 8 (-1)) = true) :=
  ⟨(C7_nprocs 8 0).1 rfl, (C7_nprocs 8 (-1)).2.2 (by decide)⟩

/-- Aggregate result over a cons cell whose head task returned nil. -/
theorem runResult_cons_none (cfg : Config) (env : TaskEnv)
    (envs : List TaskEnv) (h : (task cfg env).ret = none) :
    runResult cfg (env :: envs) = runResult cfg envs := by
  simp [runResult, installerRun, List.findSome?_cons, h]

/-- Aggregate result over a cons cell whose head task returned an error. -/
theorem runResult_cons_some (cfg : Config) (env : TaskEnv)
    (envs : List TaskEnv) (e : TaskErr) (h : (task cfg env).ret = some e) :
    runResult cfg (env :: envs) = some e := by
  simp [runResult, installerRun, List.findSome?_cons, h]

/-- `eg.Wait()` returns nil exactly when every task returned nil. -/
theorem runResult_eq_none_iff (cfg : Config) (envs : List TaskEnv) :
    runResult cfg envs = none ↔
      ∀ env ∈ envs, (task cfg env).ret = none := by
  induction envs with
  | nil => simp [runResult, installerRun]
  | cons env envs ih =>
    cases hr : (task cfg env).ret with
    | some e =>
      rw [runResult_cons_some cfg env envs e hr]
      constructor
      · intro h
        exact absurd h (by simp)
      · intro h
        have hx := h env (List.mem_cons_self env envs)
        rw [hr] at hx
        exact absurd hx (by simp)
    | none =>
      rw [runResult_cons_none cfg env envs hr]
      constructor
      · intro h env2 hmem
        rcases List.mem_cons.mp hmem with rfl | hmem2
        · exact hr
        · exact (ih.mp h) env2 hmem2
      · intro h
        exact ih.mpr (fun env2 hm => h env2 (List.mem_cons_of_mem env hm))

/-- A non-nil aggregate result is the return value of one of the tasks. -/
theorem runResult_some_mem (cfg : Config) (envs : List TaskEnv) (e : TaskErr)
    (h : runResult cfg envs = some e) :
    ∃ env ∈ envs, (task cfg env).ret = some e := by
  induction envs with
  | nil => cases h
  | cons env envs ih =>
    cases hr : (task cfg env).ret with
    | some e2 =>
      rw [runResult_cons_some cfg env envs e2 hr] at h
      simp only [Option.some.injEq] at h
      exact ⟨env, List.mem_cons_self env envs, by rw [hr, h]⟩
    | none =>
      rw [runResult_cons_none cfg env envs hr] at h
      obtain ⟨env2, hm, hret⟩ := ih h
      exact ⟨env2, List.mem_cons_of_mem env hm, hret⟩

/-- A cancellation-classified resolve error makes the task return nil. -/
theorem task_ret_canceled (cfg : Config) (env : TaskEnv) (info : BuildInfo)
    (hread : env.readInfo = .ok info)
    (hres : env.resolve = .errCanceled) :
    (task cfg env).ret = none := by
  by_cases hp : isSpecific info.mainVersion = true
  · rw [(C8_pinned_skips cfg env info hread hp).1]
  · have hp' : isSpecific info.mainVersion = false := by simpa using hp
    rw [task_ok_resolve_canceled cfg env info hread hp' hres]

/-- C2: a run stopped only gracefully — the cancellation signal fired during
resolution and no task returned a fatal error — exits with code 0 and prints
no error; a non-zero exit happens only when the installer returned a fatal
error. -/
theorem C2_graceful_cancel_exit :
    (∀ (cfg : Config) (envs : List TaskEnv),
      (∃ env ∈ envs, env.resolve = .errCanceled) →
      (∀ env ∈ envs, (task cfg env).ret = none) →
      mainOutcome cfg envs =
        { exitCode := 0, messagePrinted := false }) ∧
    (∀ (cfg : Config) (envs : List TaskEnv),
      (mainOutcome cfg envs).exitCode ≠ 0 → runResult cfg envs ≠ none) := by
  constructor
  · intro cfg envs _ hall
    have h0 : runResult cfg envs = none :=
      (runResult_eq_none_iff cfg envs).mpr hall
    unfold mainOutcome
    rw [h0]
  · intro cfg envs hne h0
    apply hne
    unfold mainOutcome
    rw [h0]

/-- C2 witness: one record whose resolve was cancelled; clean zero exit. -/
theorem C2_witness :
    mainOutcome { latestGo := false, runtimeVersion := "go1.22.0" }
      [ { readInfo := .ok { path := "example.com/mod/cmd/g",
                            mainPath := "example.com/mod",
                            mainVersion := "v1.0.0",
                            goVersion := "go1.22.0" },
          resolve := .errCanceled, install := none } ] =
      { exitCode := 0, messagePrinted := false } :=
  C2_graceful_cancel_exit.1 { latestGo := false, runtimeVersion := "go1.22.0" }
    [ { readInfo := .ok { path := "example.com/mod/cmd/g",
                          mainPath := "example.com/mod",
                          mainVersion := "v1.0.0",
                          goVersion := "go1.22.0" },
        resolve := .errCanceled, install := none } ]
    ⟨_, List.mem_cons_self _ _, rfl⟩ (by decide)

/-- C6 counterexample: an install that fails because the cancellation signal
fired is NOT suppressed from the aggregate — the run returns it as a fatal
error (the install error is wrapped with `%s`, so `main` cannot classify it
as cancellation either, and exits 1 printing it). -/
theorem C6_counterexample :
    runResult { latestGo := false, runtimeVersion := "go1.22.0" }
      [ { readInfo := .ok { path := "example.com/mod/cmd/f",
                            mainPath := "example.com/mod",
                            mainVersion := "v1.0.0",
                            goVersion := "go1.22.0" },
          resolve := .ok "v2.0.0",
          install := some { msg := "context canceled",
                            causedByCancel := true } } ] =
      some (TaskErr.installErr "context canceled" true) ∧
    mainOutcome { latestGo := false, runtimeVersion := "go1.22.0" }
      [ { readInfo := .ok { path := "example.com/mod/cmd/f",
                            mainPath := "example.com/mod",
                            mainVersion := "v1.0.0",
                            goVersion := "go1.22.0" },
          resolve := .ok "v2.0.0",
          install := some { msg := "context canceled",
                            causedByCancel := true } } ] =
      { exitCode := 1, messagePrinted := true } := by
  decide

/-- C6 amended: the run's aggregate result is nil exactly when every task
returned nil, a cancellation-classified RESOLVE error is suppressed (the task
returns nil), and a non-nil aggregate is the error one of the tasks returned;
install errors, cancellation-caused or not, are never suppressed. -/
theorem C6_aggregate (cfg : Config) (envs : List TaskEnv) :
    (runResult cfg envs = none ↔
      ∀ env ∈ envs, (task cfg env).ret = none) ∧
    (∀ env ∈ envs, env.resolve = ResolveResult.errCanceled →
      ∀ info, env.readInfo = .ok info → (task cfg env).ret = none) ∧
    (∀ e, runResult cfg envs = some e →
      ∃ env ∈ envs, (task cfg env).ret = some e) := by
  refine ⟨runResult_eq_none_iff cfg envs, ?_, ?_⟩
  · intro env _ hres info hread
    exact task_ret_canceled cfg env info hread hres
  · intro e h
    exact runResult_some_mem cfg envs e h

/-- C6 witness: the aggregate of a run whose single resolve was cancelled. -/
theorem C6_witness :
    runResult { latestGo := false, runtimeVersion := "go1.22.0" }
      [ { readInfo := .ok { path := "example.com/mod/cmd/h",
                            mainPath := "example.com/mod",
                            mainVersion := "v1.0.0",
                            goVersion := "go1.22.0" },
          resolve := .errCanceled, install := none } ] = none :=
  (C6_aggregate { latestGo := false, runtimeVersion := "go1.22.0" }
    [ { readInfo := .ok { path := "example.com/mod/cmd/h",
                          mainPath := "example.com/mod",
                          mainVersion := "v1.0.0",
                          goVersion := "go1.22.0" },
        resolve := .errCanceled, install := none } ]).1.mpr (by decide)

/-- Every task with readable build info and an uncancelled resolve yields
exactly one decision. -/
theorem task_decision_total (cfg : Config) (env : TaskEnv) (info : BuildInfo)
    (hread : env.readInfo = .ok info)
    (hcancel : env.resolve ≠ ResolveResult.errCanceled) :
    ∃ d, (task cfg env).decision = some d := by
  by_cases hp : isSpecific info.mainVersion = true
  · exact ⟨Decision.skippedPinned, (C8_pinned_skips cfg env info hread hp).2⟩
  · have hp' : isSpecific info.mainVersion = false := by simpa using hp
    cases hr : env.resolve with
    | errCanceled => exact absurd hr hcancel
    | ok v =>
      rw [task_ok_resolved cfg env info v hread hp' hr]
      by_cases hc : (!goUpgrade cfg info && !modUpgrade v info) = true
      · rw [decideAndInstall_already cfg env info v hc]
        exact ⟨Decision.alreadyLatest, rfl⟩
      · rcases (decideAndInstall_not_already cfg env info v hc).2 with h | h
        · exact ⟨Decision.upgraded, h⟩
        · exact ⟨Decision.installFailed, h⟩
    | errOther m =>
      rw [task_ok_resolve_failed cfg env info m hread hp' hr]
      by_cases hc : (!goUpgrade cfg info && !modUpgrade "?" info) = true
      · rw [decideAndInstall_already cfg env info "?" hc]
        exact ⟨Decision.alreadyLatest, rfl⟩
      · rcases (decideAndInstall_not_already cfg env info "?" hc).2 with h | h
        · exact ⟨Decision.upgraded, h⟩
        · exact ⟨Decision.installFailed, h⟩

/-- C5: absent fatal discovery errors (and cancellation), the run produces
one trace per input record, the i-th trace depends only on the i-th record's
environment, and every trace carries exactly one decision. -/
theorem C5_one_outcome_per_record (cfg : Config) (envs : List TaskEnv)
    (hread : ∀ env ∈ envs, ∃ info, env.readInfo = .ok info)
    (hcancel : ∀ env ∈ envs, env.resolve ≠ ResolveResult.errCanceled) :
    (installerRun cfg envs).length = envs.length ∧
    (∀ i : Nat, (installerRun cfg envs)[i]? = (envs[i]?).map (task cfg)) ∧
    (∀ t ∈ installerRun cfg envs, ∃ d, t.decision = some d) := by
  refine ⟨by simp [installerRun], fun i => by simp [installerRun], ?_⟩
  intro t ht
  rcases List.mem_map.mp ht with ⟨env, henv, rfl⟩
  obtain ⟨info, hinfo⟩ := hread env henv
  exact task_decision_total cfg env info hinfo (hcancel env henv)

/-- C5 witness: a single readable, uncancelled record yields one trace with
one decision. -/
theorem C5_witness :
    (installerRun { latestGo := false, runtimeVersion := "go1.22.0" }
      [ { readInfo := .ok { path := "example.com/mod/cmd/k",
                            mainPath := "example.com/mod",
                            mainVersion := "v1.0.0",
                            goVersion := "go1.22.0" },
          resolve := .ok "v1.0.0", install := none } ]).length =
      [ ( { readInfo := .ok { path := "example.com/mod/cmd/k",
                              mainPath := "example.com/mod",
                              mainVersion := "v1.0.0",
                              goVersion := "go1.22.0" },
            resolve := .ok "v1.0.0", install := none } : TaskEnv) ].length ∧
    (∀ i : Nat,
      (installerRun { latestGo := false, runtimeVersion := "go1.22.0" }
        [ { readInfo := .ok { path := "example.com/mod/cmd/k",
                              mainPath := "example.com/mod",
                              mainVersion := "v1.0.0",
                              goVersion := "go1.22.0" },
            resolve := .ok "v1.0.0", install := none } ])[i]? =
      (( [ ( { readInfo := .ok { path := "example.com/mod/cmd/k",
                                 mainPath := "example.com/mod",
                                 mainVersion := "v1.0.0",
                                 goVersion := "go1.22.0" },
               resolve := .ok "v1.0.0", install := none } : TaskEnv) ] :
          List TaskEnv)[i]?).map
        (task { latestGo := false, runtimeVersion := "go1.22.0" })) ∧
    (∀ t ∈ installerRun { latestGo := false, runtimeVersion := "go1.22.0" }
      [ { readInfo := .ok { path := "example.com/mod/cmd/k",
                            mainPath := "example.com/mod",
                            mainVersion := "v1.0.0",
                            goVersion := "go1.22.0" },
          resolve := .ok "v1.0.0", install := none } ],
      ∃ d, t.decision = some d) :=
  C5_one_outcome_per_record { latestGo := false, runtimeVersion := "go1.22.0" }
    [ { readInfo := .ok { path := "example.com/mod/cmd/k",
                          mainPath := "example.com/mod",
                          mainVersion := "v1.0.0",
                          goVersion := "go1.22.0" },
        resolve := .ok "v1.0.0", install := none } ]
    (by
      intro env2 h2
      have h3 := List.mem_singleton.mp h2
      subst h3
      exact ⟨_, rfl⟩)
    (by decide)

/-- The record a successful upgrade leaves behind, as the idempotence claim
premises it: `go install` puts the program at the resolved latest version,
stamped with the current toolchain. -/
def afterUpgrade (cfg : Config) (info : BuildInfo) (v : String) : BuildInfo :=
  { info with mainVersion := v, goVersion := cfg.runtimeVersion }

/-- C9 counterexample: when the unchanged resolver reports a pseudo-version
(a valid semver with a pre-release, as `@latest` yields for an untagged
module), the first run upgrades the program, but the second run classifies
the new current version as pinned and emits Skipped-Pinned — not
AlreadyLatest. -/
theorem C9_counterexample :
    (task { latestGo := false, runtimeVersion := "go1.22.0" }
      { readInfo := .ok { path := "example.com/mod/cmd/n",
                          mainPath := "example.com/mod",
                          mainVersion := "v1.0.0",
                          goVersion := "go1.22.0" },
        resolve := .ok "v0.0.0-20210101000000-abcdef123456",
        install := none }).decision = some Decision.upgraded ∧
    (task { latestGo := false, runtimeVersion := "go1.22.0" }
      { readInfo := .ok (afterUpgrade
                          { latestGo := false, runtimeVersion := "go1.22.0" }
                          { path := "example.com/mod/cmd/n",
                            mainPath := "example.com/mod",
                            mainVersion := "v1.0.0",
                            goVersion := "go1.22.0" }
                          "v0.0.0-20210101000000-abcdef123456"),
        resolve := .ok "v0.0.0-20210101000000-abcdef123456",
        install := none }).decision = some Decision.skippedPinned ∧
    (Decision.skippedPinned ≠ Decision.alreadyLatest) := by
  decide

/-- C9 amended: second-run idempotence holds for every program upgraded on
the first run whose new (resolved) version is itself not classified as
pinned: with the resolver unchanged and the install having updated the
record, the second run decides AlreadyLatest. -/
theorem C9_idempotent (cfg : Config) (env1 env2 : TaskEnv) (info : BuildInfo)
    (v : String)
    (hread1 : env1.readInfo = .ok info)
    (hpin1 : isSpecific info.mainVersion = false)
    (hres1 : env1.resolve = .ok v)
    (hinst1 : env1.install = none)
    (hupg : (task cfg env1).installCmd ≠ none)
    (hread2 : env2.readInfo = .ok (afterUpgrade cfg info v))
    (hres2 : env2.resolve = .ok v)
    (hpin2 : isSpecific v = false) :
    (task cfg env2).decision = some Decision.alreadyLatest := by
  have hpin2' : isSpecific (afterUpgrade cfg info v).mainVersion = false := hpin2
  rw [task_ok_resolved cfg env2 (afterUpgrade cfg info v) v hread2 hpin2' hres2]
  have hc : (!goUpgrade cfg (afterUpgrade cfg info v) &&
      !modUpgrade v (afterUpgrade cfg info v)) = true :=
    (already_cond_iff cfg (afterUpgrade cfg info v) v).mpr
      ⟨rfl, Or.inr rfl⟩
  rw [decideAndInstall_already cfg env2 (afterUpgrade cfg info v) v hc]
  rfl

/-- C9 witness: concrete two-run scenario with a clean release target. -/
theorem C9_witness :
    (task { latestGo := false, runtimeVersion := "go1.22.0" }
      { readInfo := .ok (afterUpgrade
                          { latestGo := false, runtimeVersion := "go1.22.0" }
                          { path := "example.com/mod/cmd/w",
                            mainPath := "example.com/mod",
                            mainVersion := "v1.0.0",
                            goVersion := "go1.21.0" }
                          "v2.0.0"),
        resolve := .ok "v2.0.0", install := none }).decision =
      some Decision.alreadyLatest :=
  C9_idempotent { latestGo := false, runtimeVersion := "go1.22.0" }
    { readInfo := .ok { path := "example.com/mod/cmd/w",
                        mainPath := "example.com/mod",
                        mainVersion := "v1.0.0",
                        goVersion := "go1.21.0" },
      resolve := .ok "v2.0.0", install := none }
    { readInfo := .ok (afterUpgrade
                        { latestGo := false, runtimeVersion := "go1.22.0" }
                        { path := "example.com/mod/cmd/w",
                          mainPath := "example.com/mod",
                          mainVersion := "v1.0.0",
                          goVersion := "go1.21.0" }
                        "v2.0.0"),
      resolve := .ok "v2.0.0", install := none }
    { path := "example.com/mod/cmd/w", mainPath := "example.com/mod",
      mainVersion := "v1.0.0", goVersion := "go1.21.0" }
    "v2.0.0" rfl (by decide) rfl rfl (by decide) rfl rfl (by decide)
